import Mathlib

/-
  Verification of the carbon-intensity resolution and calculation core of the
  AI Environmental Impact Calculator.

  Shallow embedding of:
    - server/calculations.js       (calculateEnvironmentalImpact and its constant tables)
    - server/services/carbonIntensity.js
                                   (getCarbonIntensity, getFallbackCarbonIntensity,
                                    mapCountryCodeToRegion, getMultipleCarbonIntensities,
                                    getCacheStats, the fallback table and the cache)

  Modelling conventions:
    - JavaScript numbers are modelled as exact rationals (ℚ).
    - Timestamps (Date.now(), and the ISO strings derived from the same clock
      reading) are modelled as a single natural-number clock value `now`
      carried in the environment.
    - The external CO2Signal provider and the configured API key are modelled
      as an explicit environment `Env`; one axios call outcome is either a
      thrown error (timeout / non-2xx / network failure), a payload without
      `data.data` (which the source turns into a thrown error), or a payload
      `{data: {carbonIntensity, fossilFuelPercentage, renewablePercentage}}`.
    - The module-level `carbonIntensityCache` Map is threaded explicitly as an
      association list with JavaScript `Map.get`/`Map.set` semantics.
    - JavaScript `x || y` on numbers (resp. `x || null`) is modelled by `jsOr`
      (resp. `jsOrNull`): a present, non-zero value is kept, anything else
      falls to the default. NaN payloads are not modelled.
    - `throw` in `calculateEnvironmentalImpact` is modelled with
      `Except String`. For string-typed inputs, every JavaScript throw site of
      `getCarbonIntensity` (the axios call and the `Invalid response` throw)
      sits inside its own try/catch, so the embedded resolver is a total
      function; this mirrors the source, where the service never rejects for
      string country codes.
-/

namespace AIImpact

set_option maxRecDepth 8000

set_option maxHeartbeats 2000000

/-- JavaScript `x || d` for a possibly-absent numeric property read `x`:
`undefined` and `0` are falsy and yield the default `d`. -/
def jsOr (x : Option ℚ) (d : ℚ) : ℚ :=
  match x with
  | some v => if v = 0 then d else v
  | none => d

/-- JavaScript `x || null` for a possibly-absent numeric property read. -/
def jsOrNull (x : Option ℚ) : Option ℚ :=
  match x with
  | some v => if v = 0 then none else some v
  | none => none

/-- JavaScript `x || d` for a possibly-absent string property read:
`undefined` and `""` are falsy and yield the default `d`. -/
def jsOrStr (x : Option String) (d : String) : String :=
  match x with
  | some s => if s = "" then d else s
  | none => d

/-- JavaScript `toUpperCase()` on the ASCII strings this module handles,
written as a structurally recursive map so that it evaluates. -/
def jsToUpper (s : String) : String := String.mk (s.data.map Char.toUpper)

/-- JavaScript `Math.round`: round half toward positive infinity. -/
def jsRound (q : ℚ) : ℤ := ⌊q + 1 / 2⌋

/-- JavaScript `Math.round(x * 100) / 100`: round to two decimal places. -/
def round2 (q : ℚ) : ℚ := (jsRound (q * 100) : ℚ) / 100

/-- Property lookup on a fixed string-keyed object literal,
modelled as first-match lookup in an association list. -/
def tableGet : List (String × α) → String → Option α
  | [], _ => none
  | (k, v) :: rest, key => if k = key then some v else tableGet rest key

/-! ### Constant tables of `server/calculations.js` -/

/-- Table `ENERGY_PER_TOKEN` (kWh per token). -/
def ENERGY_PER_TOKEN : List (String × ℚ) := [
  ("gpt3", 0.0000043),
  ("gpt4", 0.0000086),
  ("claude", 0.0000065),
  ("gemini", 0.0000055),
  ("default", 0.000006)]

/-- Table `CO2_EMISSION_FACTORS` (kg CO2 per kWh). -/
def CO2_EMISSION_FACTORS : List (String × ℚ) := [
  ("global-average", 0.475),
  ("usa-average", 0.416),
  ("europe-average", 0.276),
  ("china-average", 0.581),
  ("canada-average", 0.130),
  ("iowa-usa", 0.737),
  ("quebec-canada", 0.020),
  ("renewable", 0.050)]

/-- Record of the object literal `EQUIVALENCE_FACTORS` (kg CO2 per activity). -/
structure EquivalenceFactors where
  carMilePerGallon : ℚ
  flightPerMile : ℚ
  beefBurger : ℚ
  smartphoneCharge : ℚ
  householdElectricityPerDay : ℚ
  treeYearAbsorption : ℚ
  laptopHour : ℚ
  lightbulbHour : ℚ

/-- Constant `EQUIVALENCE_FACTORS` of `server/calculations.js`. -/
def EQUIVALENCE_FACTORS : EquivalenceFactors :=
  { carMilePerGallon := 0.411
    flightPerMile := 0.255
    beefBurger := 3.4
    smartphoneCharge := 0.0001
    householdElectricityPerDay := 20.5
    treeYearAbsorption := 22
    laptopHour := 0.05
    lightbulbHour := 0.0004 }

/-! ### Constant tables of `server/services/carbonIntensity.js` -/

/-- Table `FALLBACK_CARBON_INTENSITY` (documented as kg CO2/kWh).
The source object literal repeats nine Svalbard keys with identical values;
the duplicates are kept in source order (first-match lookup and JavaScript
last-duplicate-wins agree because the repeated values are equal). -/
def FALLBACK_CARBON_INTENSITY : List (String × ℚ) := [
  ("global-average", 0.475),
  ("united-states", 0.386),
  ("europe", 0.276),
  ("china", 0.681),
  ("india", 0.708),
  ("canada", 0.130),
  ("france", 0.052),
  ("germany", 0.338),
  ("united-kingdom", 0.193),
  ("australia", 0.709),
  ("brazil", 0.089),
  ("japan", 0.465),
  ("south-korea", 0.415),
  ("russia", 0.331),
  ("south-africa", 0.928),
  ("mexico", 0.449),
  ("indonesia", 0.619),
  ("turkey", 0.429),
  ("iran", 0.486),
  ("saudi-arabia", 0.505),
  ("egypt", 0.456),
  ("thailand", 0.456),
  ("vietnam", 0.456),
  ("philippines", 0.456),
  ("malaysia", 0.456),
  ("singapore", 0.456),
  ("taiwan", 0.456),
  ("hong-kong", 0.456),
  ("israel", 0.456),
  ("uae", 0.456),
  ("qatar", 0.456),
  ("kuwait", 0.456),
  ("bahrain", 0.456),
  ("oman", 0.456),
  ("jordan", 0.456),
  ("lebanon", 0.456),
  ("syria", 0.456),
  ("iraq", 0.456),
  ("afghanistan", 0.456),
  ("pakistan", 0.456),
  ("bangladesh", 0.456),
  ("sri-lanka", 0.456),
  ("nepal", 0.456),
  ("bhutan", 0.456),
  ("myanmar", 0.456),
  ("cambodia", 0.456),
  ("laos", 0.456),
  ("mongolia", 0.456),
  ("north-korea", 0.456),
  ("kazakhstan", 0.456),
  ("uzbekistan", 0.456),
  ("turkmenistan", 0.456),
  ("tajikistan", 0.456),
  ("kyrgyzstan", 0.456),
  ("azerbaijan", 0.456),
  ("armenia", 0.456),
  ("georgia", 0.456),
  ("ukraine", 0.456),
  ("belarus", 0.456),
  ("moldova", 0.456),
  ("romania", 0.456),
  ("bulgaria", 0.456),
  ("serbia", 0.456),
  ("croatia", 0.456),
  ("slovenia", 0.456),
  ("slovakia", 0.456),
  ("czech-republic", 0.456),
  ("poland", 0.456),
  ("hungary", 0.456),
  ("austria", 0.456),
  ("switzerland", 0.456),
  ("liechtenstein", 0.456),
  ("luxembourg", 0.456),
  ("belgium", 0.456),
  ("netherlands", 0.456),
  ("denmark", 0.456),
  ("sweden", 0.456),
  ("norway", 0.456),
  ("finland", 0.456),
  ("iceland", 0.456),
  ("ireland", 0.456),
  ("portugal", 0.456),
  ("spain", 0.456),
  ("italy", 0.456),
  ("malta", 0.456),
  ("cyprus", 0.456),
  ("greece", 0.456),
  ("albania", 0.456),
  ("macedonia", 0.456),
  ("montenegro", 0.456),
  ("bosnia-herzegovina", 0.456),
  ("kosovo", 0.456),
  ("estonia", 0.456),
  ("latvia", 0.456),
  ("lithuania", 0.456),
  ("argentina", 0.456),
  ("chile", 0.456),
  ("colombia", 0.456),
  ("peru", 0.456),
  ("venezuela", 0.456),
  ("ecuador", 0.456),
  ("bolivia", 0.456),
  ("paraguay", 0.456),
  ("uruguay", 0.456),
  ("guyana", 0.456),
  ("suriname", 0.456),
  ("french-guiana", 0.456),
  ("new-zealand", 0.456),
  ("fiji", 0.456),
  ("papua-new-guinea", 0.456),
  ("solomon-islands", 0.456),
  ("vanuatu", 0.456),
  ("samoa", 0.456),
  ("tonga", 0.456),
  ("kiribati", 0.456),
  ("tuvalu", 0.456),
  ("nauru", 0.456),
  ("palau", 0.456),
  ("marshall-islands", 0.456),
  ("micronesia", 0.456),
  ("cook-islands", 0.456),
  ("niue", 0.456),
  ("tokelau", 0.456),
  ("pitcairn", 0.456),
  ("norfolk-island", 0.456),
  ("christmas-island", 0.456),
  ("cocos-islands", 0.456),
  ("heard-island", 0.456),
  ("mcdonald-islands", 0.456),
  ("british-indian-ocean-territory", 0.456),
  ("south-georgia", 0.456),
  ("south-sandwich-islands", 0.456),
  ("bouvet-island", 0.456),
  ("jan-mayen", 0.456),
  ("svalbard", 0.456),
  ("bear-island", 0.456),
  ("hopen", 0.456),
  ("edgeoya", 0.456),
  ("barentsoya", 0.456),
  ("kvitoya", 0.456),
  ("kong-karls-land", 0.456),
  ("prins-karls-forland", 0.456),
  ("nordaustlandet", 0.456),
  ("spitsbergen", 0.456),
  ("bjornoya", 0.456),
  ("hopen", 0.456),
  ("edgeoya", 0.456),
  ("barentsoya", 0.456),
  ("kvitoya", 0.456),
  ("kong-karls-land", 0.456),
  ("prins-karls-forland", 0.456),
  ("nordaustlandet", 0.456),
  ("spitsbergen", 0.456),
  ("bjornoya", 0.456)]

/-- Table `countryToRegion` inside `mapCountryCodeToRegion`
(ISO 3166-1 alpha-2 country code to region name). -/
def countryToRegion : List (String × String) := [
  ("US", "united-states"),
  ("CA", "canada"),
  ("MX", "mexico"),
  ("BR", "brazil"),
  ("AR", "argentina"),
  ("CL", "chile"),
  ("CO", "colombia"),
  ("PE", "peru"),
  ("VE", "venezuela"),
  ("EC", "ecuador"),
  ("BO", "bolivia"),
  ("PY", "paraguay"),
  ("UY", "uruguay"),
  ("GY", "guyana"),
  ("SR", "suriname"),
  ("GF", "french-guiana"),
  ("GB", "united-kingdom"),
  ("FR", "france"),
  ("DE", "germany"),
  ("IT", "italy"),
  ("ES", "spain"),
  ("PT", "portugal"),
  ("NL", "netherlands"),
  ("BE", "belgium"),
  ("CH", "switzerland"),
  ("AT", "austria"),
  ("SE", "sweden"),
  ("NO", "norway"),
  ("DK", "denmark"),
  ("FI", "finland"),
  ("IS", "iceland"),
  ("IE", "ireland"),
  ("PL", "poland"),
  ("CZ", "czech-republic"),
  ("SK", "slovakia"),
  ("HU", "hungary"),
  ("RO", "romania"),
  ("BG", "bulgaria"),
  ("HR", "croatia"),
  ("SI", "slovenia"),
  ("EE", "estonia"),
  ("LV", "latvia"),
  ("LT", "lithuania"),
  ("GR", "greece"),
  ("CY", "cyprus"),
  ("MT", "malta"),
  ("LU", "luxembourg"),
  ("LI", "liechtenstein"),
  ("MC", "monaco"),
  ("SM", "san-marino"),
  ("VA", "vatican"),
  ("AD", "andorra"),
  ("CN", "china"),
  ("IN", "india"),
  ("JP", "japan"),
  ("KR", "south-korea"),
  ("TH", "thailand"),
  ("VN", "vietnam"),
  ("PH", "philippines"),
  ("MY", "malaysia"),
  ("SG", "singapore"),
  ("ID", "indonesia"),
  ("TW", "taiwan"),
  ("HK", "hong-kong"),
  ("MO", "macau"),
  ("MN", "mongolia"),
  ("KZ", "kazakhstan"),
  ("UZ", "uzbekistan"),
  ("TM", "turkmenistan"),
  ("TJ", "tajikistan"),
  ("KG", "kyrgyzstan"),
  ("AF", "afghanistan"),
  ("PK", "pakistan"),
  ("BD", "bangladesh"),
  ("LK", "sri-lanka"),
  ("NP", "nepal"),
  ("BT", "bhutan"),
  ("MV", "maldives"),
  ("MM", "myanmar"),
  ("LA", "laos"),
  ("KH", "cambodia"),
  ("BN", "brunei"),
  ("TL", "east-timor"),
  ("AU", "australia"),
  ("NZ", "new-zealand"),
  ("FJ", "fiji"),
  ("PG", "papua-new-guinea"),
  ("SB", "solomon-islands"),
  ("VU", "vanuatu"),
  ("NC", "new-caledonia"),
  ("PF", "french-polynesia"),
  ("WS", "samoa"),
  ("TO", "tonga"),
  ("KI", "kiribati"),
  ("TV", "tuvalu"),
  ("NR", "nauru"),
  ("PW", "palau"),
  ("MH", "marshall-islands"),
  ("FM", "micronesia"),
  ("CK", "cook-islands"),
  ("NU", "niue"),
  ("TK", "tokelau"),
  ("WF", "wallis-futuna"),
  ("AS", "american-samoa"),
  ("GU", "guam"),
  ("MP", "northern-mariana-islands"),
  ("VI", "us-virgin-islands"),
  ("PR", "puerto-rico"),
  ("RU", "russia"),
  ("UA", "ukraine"),
  ("BY", "belarus"),
  ("MD", "moldova"),
  ("GE", "georgia"),
  ("AM", "armenia"),
  ("AZ", "azerbaijan"),
  ("TR", "turkey"),
  ("IR", "iran"),
  ("IQ", "iraq"),
  ("SY", "syria"),
  ("LB", "lebanon"),
  ("JO", "jordan"),
  ("IL", "israel"),
  ("PS", "palestine"),
  ("SA", "saudi-arabia"),
  ("AE", "uae"),
  ("QA", "qatar"),
  ("BH", "bahrain"),
  ("KW", "kuwait"),
  ("OM", "oman"),
  ("YE", "yemen"),
  ("EG", "egypt"),
  ("LY", "libya"),
  ("TN", "tunisia"),
  ("DZ", "algeria"),
  ("MA", "morocco"),
  ("SD", "sudan"),
  ("SS", "south-sudan"),
  ("ET", "ethiopia"),
  ("ER", "eritrea"),
  ("DJ", "djibouti"),
  ("SO", "somalia"),
  ("KE", "kenya"),
  ("UG", "uganda"),
  ("TZ", "tanzania"),
  ("RW", "rwanda"),
  ("BI", "burundi"),
  ("CD", "congo-democratic"),
  ("CG", "congo"),
  ("CF", "central-african-republic"),
  ("TD", "chad"),
  ("CM", "cameroon"),
  ("GQ", "equatorial-guinea"),
  ("GA", "gabon"),
  ("ST", "sao-tome-principe"),
  ("AO", "angola"),
  ("ZM", "zambia"),
  ("ZW", "zimbabwe"),
  ("BW", "botswana"),
  ("NA", "namibia"),
  ("ZA", "south-africa"),
  ("LS", "lesotho"),
  ("SZ", "eswatini"),
  ("MG", "madagascar"),
  ("MU", "mauritius"),
  ("SC", "seychelles"),
  ("KM", "comoros"),
  ("YT", "mayotte"),
  ("RE", "reunion"),
  ("MZ", "mozambique"),
  ("MW", "malawi"),
  ("GH", "ghana"),
  ("TG", "togo"),
  ("BJ", "benin"),
  ("NE", "niger"),
  ("BF", "burkina-faso"),
  ("ML", "mali"),
  ("SN", "senegal"),
  ("GM", "gambia"),
  ("GW", "guinea-bissau"),
  ("GN", "guinea"),
  ("SL", "sierra-leone"),
  ("LR", "liberia"),
  ("CI", "ivory-coast"),
  ("MR", "mauritania"),
  ("CV", "cape-verde"),
  ("EH", "western-sahara")]

/-! ### Data model of the resolver -/

/-- Result object of `getCarbonIntensity` / `getFallbackCarbonIntensity`
(the spec's `CarbonIntensitySample`). `timestamp` models the
`new Date().toISOString()` reading taken at construction time. -/
structure CarbonSample where
  countryCode : String
  carbonIntensity : ℚ
  fossilFuelPercentage : Option ℚ
  renewablePercentage : Option ℚ
  timestamp : ℕ
  source : String
  region : String
  deriving Repr, DecidableEq, Inhabited

/-- Cache entry `{ data, timestamp }` stored in `carbonIntensityCache`. -/
structure CacheEntry where
  data : CarbonSample
  timestamp : ℕ
  deriving Repr, DecidableEq, Inhabited

/-- The module-level `carbonIntensityCache` Map, threaded explicitly. -/
abbrev Cache := List (String × CacheEntry)

/-- JavaScript `Map.get`. -/
def mapGet (m : Cache) (k : String) : Option CacheEntry := tableGet m k

/-- JavaScript `Map.set`: replace the entry of an existing key in place,
otherwise append a new entry. -/
def mapSet : Cache → String → CacheEntry → Cache
  | [], k, v => [(k, v)]
  | (k0, v0) :: rest, k, v =>
      if k0 = k then (k, v) :: rest else (k0, v0) :: mapSet rest k v

/-- Constant `CACHE_TTL = 5 * 60 * 1000` milliseconds. -/
def CACHE_TTL : ℕ := 5 * 60 * 1000

/-- Outcome of the one axios call to the CO2Signal provider:
either the request throws (timeout, non-2xx, network failure), or it yields a
response without `data.data` (the source then throws
"Invalid response from CO2Signal API", caught by the same catch), or it yields
a payload `data.data` whose fields may each be absent. -/
inductive ProviderOutcome where
  | networkError
  | badPayload
  | success (carbonIntensity fossilFuelPercentage renewablePercentage : Option ℚ)
  deriving Repr, DecidableEq

/-- Ambient environment of the service: the configured `CO2SIGNAL_API_KEY`
(`null` when the environment variable is unset), the provider's response as a
function of the requested upper-cased country code, and the current clock. -/
structure Env where
  apiKey : Option String
  provider : String → ProviderOutcome
  now : ℕ

/-- Function `mapCountryCodeToRegion(countryCode)`:
`countryToRegion[countryCode.toUpperCase()] || 'global-average'`. -/
def mapCountryCodeToRegion (countryCode : String) : String :=
  jsOrStr (tableGet countryToRegion (jsToUpper countryCode)) "global-average"

/-- Function `getFallbackCarbonIntensity(countryCode)`:
`FALLBACK_CARBON_INTENSITY[region] || FALLBACK_CARBON_INTENSITY['global-average']`,
packaged as a sample with `source: 'fallback'` and null percentages. -/
def getFallbackCarbonIntensity (now : ℕ) (countryCode : String) : CarbonSample :=
  let region := mapCountryCodeToRegion countryCode
  let carbonIntensity :=
    jsOr (tableGet FALLBACK_CARBON_INTENSITY region)
      ((tableGet FALLBACK_CARBON_INTENSITY "global-average").getD 0)
  { countryCode := jsToUpper countryCode
    carbonIntensity := carbonIntensity
    fossilFuelPercentage := none
    renewablePercentage := none
    timestamp := now
    source := "fallback"
    region := region }

/-- Body of `getCarbonIntensity` after the cache check misses
(no entry, or entry at least `CACHE_TTL` old):
  - no API key: build fallback data, cache it, return it;
  - API key configured, axios succeeds with a `data.data` payload: build a
    `source: 'co2signal'` sample (each absent/falsy payload field replaced per
    the source's `||` defaults), cache it, return it;
  - axios throws or the payload lacks `data.data`: the catch block returns
    fallback data WITHOUT caching it. -/
def getCarbonIntensityMiss (env : Env) (cache : Cache) (countryCode cacheKey : String) :
    CarbonSample × Cache :=
  match env.apiKey with
  | none =>
      let fallbackData := getFallbackCarbonIntensity env.now countryCode
      (fallbackData, mapSet cache cacheKey ⟨fallbackData, env.now⟩)
  | some _ =>
      match env.provider (jsToUpper countryCode) with
      | .success ci fossil renewable =>
          let result : CarbonSample :=
            { countryCode := jsToUpper countryCode
              carbonIntensity :=
                jsOr ci (getFallbackCarbonIntensity env.now countryCode).carbonIntensity
              fossilFuelPercentage := jsOrNull fossil
              renewablePercentage := jsOrNull renewable
              timestamp := env.now
              source := "co2signal"
              region := mapCountryCodeToRegion countryCode }
          (result, mapSet cache cacheKey ⟨result, env.now⟩)
      | .networkError => (getFallbackCarbonIntensity env.now countryCode, cache)
      | .badPayload => (getFallbackCarbonIntensity env.now countryCode, cache)

/-- Function `getCarbonIntensity(countryCode)` (the spec's `resolve`):
cache hit when an entry exists and `Date.now() - cached.timestamp < CACHE_TTL`
(returning the cached sample and leaving the cache untouched), otherwise the
miss path. Returns the sample together with the updated cache. -/
def getCarbonIntensity (env : Env) (cache : Cache) (countryCode : String) :
    CarbonSample × Cache :=
  let cacheKey := "carbon_" ++ countryCode
  match mapGet cache cacheKey with
  | some cached =>
      if env.now - cached.timestamp < CACHE_TTL then (cached.data, cache)
      else getCarbonIntensityMiss env cache countryCode cacheKey
  | none => getCarbonIntensityMiss env cache countryCode cacheKey

/-- Function `getMultipleCarbonIntensities(countryCodes)` (the spec's
`resolveMany`): `Promise.all(countryCodes.map(code => getCarbonIntensity(code)))`.
`Promise.all` joins the per-key results back in input order; the shared cache
is threaded through the calls in input order, which is the event-loop
execution order of the fallback path. -/
def getMultipleCarbonIntensities (env : Env) (cache : Cache) :
    List String → List CarbonSample × Cache
  | [] => ([], cache)
  | code :: rest =>
      let r1 := getCarbonIntensity env cache code
      let r2 := getMultipleCarbonIntensities env r1.2 rest
      (r1.1 :: r2.1, r2.2)

/-- Result of `getCacheStats()`. -/
structure CacheStats where
  totalEntries : ℕ
  validEntries : ℕ
  expiredEntries : ℕ
  cacheTTL : ℕ
  cacheTTLMinutes : ℚ
  deriving Repr, DecidableEq

/-- Function `getCacheStats()`: walk the cache entries once, counting an entry
as valid when `now - value.timestamp < CACHE_TTL` and as expired otherwise;
`totalEntries` is `carbonIntensityCache.size`. Read-only: the cache is not an
output. -/
def getCacheStats (now : ℕ) (cache : Cache) : CacheStats :=
  { totalEntries := cache.length
    validEntries := cache.countP (fun p => decide (now - p.2.timestamp < CACHE_TTL))
    expiredEntries := cache.countP (fun p => !decide (now - p.2.timestamp < CACHE_TTL))
    cacheTTL := CACHE_TTL
    cacheTTLMinutes := (CACHE_TTL : ℚ) / (1000 * 60) }

/-! ### The calculator (`server/calculations.js`) -/

/-- The `tokens` argument of `calculateEnvironmentalImpact` as the callers can
supply it: a missing value (`undefined`/`null`), a non-numeric `NaN`
(e.g. from `parseInt` of garbage), or a number. -/
inductive JSTokens where
  | undef
  | nan
  | num (q : ℚ)
  deriving Repr, DecidableEq

/-- Rounded `equivalences` block of the result object. -/
structure Equivalences where
  carMiles : ℚ
  flightMiles : ℚ
  beefBurgers : ℚ
  smartphoneCharges : ℚ
  householdElectricityDays : ℚ
  treeYears : ℚ
  laptopHours : ℚ
  lightbulbHours : ℚ
  deriving Repr, DecidableEq, Inhabited

/-- The `metadata` block of the result object. -/
structure Metadata where
  realTimeData : Bool
  dataSource : String
  timestamp : ℕ
  fossilFuelPercentage : Option ℚ
  renewablePercentage : Option ℚ
  deriving Repr, DecidableEq, Inhabited

/-- The result object of `calculateEnvironmentalImpact`
(the spec's `ImpactResult`). `energyTotal` is `energy.total` (kWh),
`co2Total` is `co2.total` (kg CO2e), `co2Factor` is `co2.factor`
(kg CO2/kWh); the constant `unit` strings are omitted. -/
structure ImpactResult where
  tokens : ℚ
  model : String
  region : String
  energyTotal : ℚ
  co2Total : ℚ
  co2Factor : ℚ
  equivalences : Equivalences
  metadata : Metadata
  deriving Repr, DecidableEq, Inhabited

/-- Assembly of the result object (lines 87-132 of the source): the
unrounded equivalences are each `totalCO2 / factor`, then rounded only for
display (2 decimals, or `Math.round` alone for `smartphoneCharges` and
`lightbulbHours`); `metadata.realTimeData` is `useRealTimeData && carbonData !== null`
and the remaining metadata fields switch on `carbonData`. -/
def buildResult (env : Env) (tokens : ℚ) (model region : String)
    (useRealTimeData : Bool) (totalEnergy co2Factor : ℚ)
    (carbonData : Option CarbonSample) : ImpactResult :=
  let totalCO2 := totalEnergy * co2Factor
  { tokens := tokens
    model := model
    region := region
    energyTotal := totalEnergy
    co2Total := totalCO2
    co2Factor := co2Factor
    equivalences :=
      { carMiles := round2 (totalCO2 / EQUIVALENCE_FACTORS.carMilePerGallon)
        flightMiles := round2 (totalCO2 / EQUIVALENCE_FACTORS.flightPerMile)
        beefBurgers := round2 (totalCO2 / EQUIVALENCE_FACTORS.beefBurger)
        smartphoneCharges := (jsRound (totalCO2 / EQUIVALENCE_FACTORS.smartphoneCharge) : ℚ)
        householdElectricityDays :=
          round2 (totalCO2 / EQUIVALENCE_FACTORS.householdElectricityPerDay)
        treeYears := round2 (totalCO2 / EQUIVALENCE_FACTORS.treeYearAbsorption)
        laptopHours := round2 (totalCO2 / EQUIVALENCE_FACTORS.laptopHour)
        lightbulbHours := (jsRound (totalCO2 / EQUIVALENCE_FACTORS.lightbulbHour) : ℚ) }
    metadata :=
      { realTimeData := useRealTimeData && carbonData.isSome
        dataSource :=
          match carbonData with
          | some cd => cd.source
          | none => "static"
        timestamp :=
          match carbonData with
          | some cd => cd.timestamp
          | none => env.now
        fossilFuelPercentage :=
          match carbonData with
          | some cd => cd.fossilFuelPercentage
          | none => none
        renewablePercentage :=
          match carbonData with
          | some cd => cd.renewablePercentage
          | none => none } }

/-- Function `calculateEnvironmentalImpact(tokens, model, region, useRealTimeData)`
(the spec's `compute`). Validation `if (!tokens || tokens <= 0) throw ...`
rejects a missing value, `NaN`, and any number `<= 0` (for a number `q`,
falsy means `q = 0`, so the guard is exactly `q <= 0`). On the live path the
source wraps the service call in try/catch, but `getCarbonIntensity` never
rejects for a string region (every throw site sits inside its own catch), so
the catch branch of lines 77-80 is unreachable and `carbonData` is always
non-null there; the embedding therefore has no failure branch on the live
path, and `metadata.realTimeData = useRealTimeData && carbonData !== null`
is true on that whole path. -/
def calculateEnvironmentalImpact (env : Env) (cache : Cache) (tokens : JSTokens)
    (model region : String) (useRealTimeData : Bool) :
    Except String (ImpactResult × Cache) :=
  match tokens with
  | .undef => .error "Token count must be a positive number"
  | .nan => .error "Token count must be a positive number"
  | .num q =>
      if q ≤ 0 then .error "Token count must be a positive number"
      else
        let energyPerToken :=
          jsOr (tableGet ENERGY_PER_TOKEN model)
            ((tableGet ENERGY_PER_TOKEN "default").getD 0)
        let totalEnergy := q * energyPerToken
        if useRealTimeData && !(region == "global-average") && !(region == "renewable") then
          let r1 := getCarbonIntensity env cache region
          .ok (buildResult env q model region useRealTimeData totalEnergy
                (r1.1.carbonIntensity / 1000) (some r1.1), r1.2)
        else
          let co2Factor :=
            jsOr (tableGet CO2_EMISSION_FACTORS region)
              ((tableGet CO2_EMISSION_FACTORS "global-average").getD 0)
          .ok (buildResult env q model region useRealTimeData totalEnergy co2Factor none,
                cache)

/-! ### General lemmas about the embedded lookup and cache operations -/

/-- A value returned by `tableGet` is a value of the table. -/
theorem tableGet_mem {α : Type} :
    ∀ (l : List (String × α)) (k : String) (v : α),
      tableGet l k = some v → (k, v) ∈ l := by
  intro l
  induction l with
  | nil => intro k v h; simp [tableGet] at h
  | cons p rest ih =>
      intro k v h
      obtain ⟨k0, v0⟩ := p
      by_cases hk : k0 = k
      · subst hk
        simp [tableGet] at h
        simp [h]
      · simp only [tableGet, if_neg hk] at h
        exact List.mem_cons_of_mem _ (ih k v h)

/-- An entry of `mapSet m k v` is the new entry or an entry of `m`. -/
theorem mapSet_mem :
    ∀ (m : Cache) (k : String) (v : CacheEntry) (p : String × CacheEntry),
      p ∈ mapSet m k v → p = (k, v) ∨ p ∈ m := by
  intro m
  induction m with
  | nil => intro k v p h; simp [mapSet] at h; simp [h]
  | cons q rest ih =>
      intro k v p h
      obtain ⟨k0, v0⟩ := q
      by_cases hk : k0 = k
      · simp only [mapSet, if_pos hk] at h
        rcases List.mem_cons.mp h with h1 | h1
        · exact Or.inl h1
        · exact Or.inr (List.mem_cons_of_mem _ h1)
      · simp only [mapSet, if_neg hk] at h
        rcases List.mem_cons.mp h with h1 | h1
        · exact Or.inr (List.mem_cons.mpr (Or.inl h1))
        · rcases ih k v p h1 with h2 | h2
          · exact Or.inl h2
          · exact Or.inr (List.mem_cons_of_mem _ h2)

/-- Reading `mapSet m k v` at `k2`: the new value at `k`, the old map elsewhere. -/
theorem mapGet_mapSet (m : Cache) (k : String) (v : CacheEntry) (k2 : String) :
    mapGet (mapSet m k v) k2 = if k = k2 then some v else mapGet m k2 := by
  induction m with
  | nil => simp [mapSet, mapGet, tableGet]
  | cons q rest ih =>
      obtain ⟨k0, v0⟩ := q
      by_cases hk : k0 = k
      · subst hk
        by_cases hk2 : k0 = k2 <;> simp [mapSet, mapGet, tableGet, hk2]
      · by_cases hk2 : k0 = k2
        · subst hk2
          have hne : ¬ k = k0 := fun h => hk h.symm
          simp [mapSet, mapGet, tableGet, if_neg hk, if_neg hne]
        · simp only [mapSet, if_neg hk]
          simp only [mapGet, tableGet, if_neg hk2] at ih ⊢
          exact ih

/-- Splitting the length of a list by a Boolean predicate. -/
theorem countP_add_countP_not (l : List α) (p : α → Bool) :
    l.countP p + l.countP (fun a => !p a) = l.length := by
  induction l with
  | nil => simp
  | cons a rest ih =>
      by_cases h : p a <;> simp [List.countP_cons, h] <;> omega

/-! ### Positivity of the constant tables -/

/-- Every value of the fallback table is positive. -/
theorem fallback_table_pos : ∀ p ∈ FALLBACK_CARBON_INTENSITY, 0 < p.2 := by
  simp only [FALLBACK_CARBON_INTENSITY, List.forall_mem_cons, List.not_mem_nil,
    false_implies, forall_const, and_true]
  norm_num

/-- Every value of the energy-per-token table is positive. -/
theorem energy_table_pos : ∀ p ∈ ENERGY_PER_TOKEN, 0 < p.2 := by
  simp only [ENERGY_PER_TOKEN, List.forall_mem_cons, List.not_mem_nil,
    false_implies, forall_const, and_true]
  norm_num

/-- Every value of the static emission-factor table is positive. -/
theorem co2_table_pos : ∀ p ∈ CO2_EMISSION_FACTORS, 0 < p.2 := by
  simp only [CO2_EMISSION_FACTORS, List.forall_mem_cons, List.not_mem_nil,
    false_implies, forall_const, and_true]
  norm_num

/-- Positivity through the JavaScript `||` default. -/
theorem jsOr_pos {x : Option ℚ} {d : ℚ} (hx : ∀ v, x = some v → 0 ≤ v) (hd : 0 < d) :
    0 < jsOr x d := by
  cases x with
  | none => simpa [jsOr] using hd
  | some v =>
      have hv := hx v rfl
      by_cases h0 : v = 0
      · simpa [jsOr, h0] using hd
      · simpa [jsOr, h0] using lt_of_le_of_ne hv (Ne.symm h0)

/-- The fallback sample always carries a positive intensity. -/
theorem getFallbackCarbonIntensity_pos (now : ℕ) (cc : String) :
    0 < (getFallbackCarbonIntensity now cc).carbonIntensity := by
  have hga : tableGet FALLBACK_CARBON_INTENSITY "global-average" = some 0.475 := by
    simp [FALLBACK_CARBON_INTENSITY, tableGet]
  simp only [getFallbackCarbonIntensity]
  apply jsOr_pos
  · intro v hv
    exact le_of_lt (fallback_table_pos _ (tableGet_mem _ _ _ hv))
  · rw [hga]
    norm_num

/-! ### Resolver invariants -/

/-- Environment assumption: whenever the live provider delivers a
`data.data.carbonIntensity` field, the delivered number is non-negative
(carbon intensities are physical, non-negative quantities). -/
def ProviderNonneg (env : Env) : Prop :=
  ∀ cc ci f r, env.provider cc = ProviderOutcome.success ci f r →
    ∀ q, ci = some q → 0 ≤ q

/-- Cache invariant: every cached sample carries a positive intensity.
It holds of the empty initial cache and is preserved by every resolve call. -/
def CacheOK (cache : Cache) : Prop := ∀ p ∈ cache, 0 < p.2.data.carbonIntensity

/-- The miss path of the resolver returns a positive intensity and preserves
the cache invariant. -/
theorem getCarbonIntensityMiss_pos (env : Env) (cache : Cache) (cc ck : String)
    (hp : ProviderNonneg env) (hc : CacheOK cache) :
    0 < (getCarbonIntensityMiss env cache cc ck).1.carbonIntensity ∧
      CacheOK (getCarbonIntensityMiss env cache cc ck).2 := by
  have hCachePres : ∀ (s : CarbonSample), 0 < s.carbonIntensity →
      CacheOK (mapSet cache ck ⟨s, env.now⟩) := by
    intro s hs p hmem
    rcases mapSet_mem cache ck ⟨s, env.now⟩ p hmem with h | h
    · rw [h]
      exact hs
    · exact hc p h
  unfold getCarbonIntensityMiss
  cases hkey : env.apiKey with
  | none =>
      refine ⟨getFallbackCarbonIntensity_pos env.now cc, ?_⟩
      exact hCachePres _ (getFallbackCarbonIntensity_pos env.now cc)
  | some k =>
      cases hprov : env.provider (jsToUpper cc) with
      | networkError => exact ⟨getFallbackCarbonIntensity_pos env.now cc, hc⟩
      | badPayload => exact ⟨getFallbackCarbonIntensity_pos env.now cc, hc⟩
      | success ci fossil renewable =>
          have hpos : 0 < jsOr ci (getFallbackCarbonIntensity env.now cc).carbonIntensity := by
            apply jsOr_pos
            · intro v hv
              exact hp (jsToUpper cc) ci fossil renewable hprov v hv
            · exact getFallbackCarbonIntensity_pos env.now cc
          exact ⟨hpos, hCachePres _ hpos⟩

/-- The resolver returns a positive intensity and preserves the cache
invariant, for any environment satisfying `ProviderNonneg`. -/
theorem getCarbonIntensity_pos (env : Env) (cache : Cache) (key : String)
    (hp : ProviderNonneg env) (hc : CacheOK cache) :
    0 < (getCarbonIntensity env cache key).1.carbonIntensity ∧
      CacheOK (getCarbonIntensity env cache key).2 := by
  have hmiss := getCarbonIntensityMiss_pos env cache key ("carbon_" ++ key) hp hc
  simp only [getCarbonIntensity]
  cases hget : mapGet cache ("carbon_" ++ key) with
  | none => exact hmiss
  | some cached =>
      by_cases hfresh : env.now - cached.timestamp < CACHE_TTL
      · simp only [hfresh, if_true]
        exact ⟨hc _ (tableGet_mem cache _ cached hget), hc⟩
      · simp only [hfresh, if_false]
        exact hmiss

/-! ### Claim C2 -/

/-- C2: for every string input region key — mapped or garbage — the resolver
never throws (its embedding is a total function: every JavaScript throw site
sits inside its own catch) and returns a sample with strictly positive
`carbonIntensity`; under the physical assumption that any live-delivered
intensity is non-negative, and for any cache whose entries were produced by
earlier resolve calls (`CacheOK`, preserved by the call itself). -/
theorem c2_resolver_always_positive (env : Env) (cache : Cache) (key : String)
    (hp : ProviderNonneg env) (hc : CacheOK cache) :
    0 < (getCarbonIntensity env cache key).1.carbonIntensity ∧
      CacheOK (getCarbonIntensity env cache key).2 :=
  getCarbonIntensity_pos env cache key hp hc

/-- Environment with no configured API key and a failing provider,
at clock value 0. -/
def envNoKey : Env :=
  { apiKey := none, provider := fun _ => ProviderOutcome.networkError, now := 0 }

/-- Witness for C2 at a garbage region key and the empty cache. -/
theorem c2_witness :
    ProviderNonneg envNoKey ∧ CacheOK ([] : Cache) ∧
      0 < (getCarbonIntensity envNoKey [] "zz-garbage-key").1.carbonIntensity := by
  have hp : ProviderNonneg envNoKey := by
    intro cc ci f r h
    simp [envNoKey] at h
  have hc : CacheOK ([] : Cache) := by
    intro p hmem
    simp at hmem
  exact ⟨hp, hc, (c2_resolver_always_positive envNoKey [] "zz-garbage-key" hp hc).1⟩

/-! ### Claim C5 -/

/-- Every sample constructed on the miss path is fresh: its `timestamp`
(the spec's `observedAt`) is the current clock reading. -/
theorem getCarbonIntensityMiss_fresh (env : Env) (cache : Cache) (cc ck : String) :
    (getCarbonIntensityMiss env cache cc ck).1.timestamp = env.now := by
  unfold getCarbonIntensityMiss
  cases env.apiKey with
  | none => simp [getFallbackCarbonIntensity]
  | some k =>
      cases env.provider (jsToUpper cc) with
      | networkError => simp [getFallbackCarbonIntensity]
      | badPayload => simp [getFallbackCarbonIntensity]
      | success ci fossil renewable => simp

/-- C5: a cache entry strictly younger than the 5-minute TTL is returned
unchanged — the cached sample itself, original timestamp included, with no
new fetch and no cache mutation; an entry whose age is at least the TTL is
treated as a miss: the call runs the miss path and the returned sample is
freshly constructed (`timestamp = now`), never the stale cached data. -/
theorem c5_cache_ttl (env : Env) (cache : Cache) (key : String) (cached : CacheEntry)
    (hget : mapGet cache ("carbon_" ++ key) = some cached) :
    (env.now - cached.timestamp < CACHE_TTL →
      getCarbonIntensity env cache key = (cached.data, cache)) ∧
    (CACHE_TTL ≤ env.now - cached.timestamp →
      getCarbonIntensity env cache key =
        getCarbonIntensityMiss env cache key ("carbon_" ++ key) ∧
      (getCarbonIntensity env cache key).1.timestamp = env.now) := by
  constructor
  · intro hfresh
    simp only [getCarbonIntensity, hget, hfresh, if_true]
  · intro hstale
    have hnot : ¬ env.now - cached.timestamp < CACHE_TTL := not_lt.mpr hstale
    have heq : getCarbonIntensity env cache key =
        getCarbonIntensityMiss env cache key ("carbon_" ++ key) := by
      simp only [getCarbonIntensity, hget, hnot, if_false]
    refine ⟨heq, ?_⟩
    rw [heq]
    exact getCarbonIntensityMiss_fresh env cache key ("carbon_" ++ key)

/-- Concrete sample and one-entry cache used as witnesses. -/
def sampleUS0 : CarbonSample := getFallbackCarbonIntensity 0 "US"

/-- One-entry cache holding `sampleUS0` inserted at clock 0. -/
def cacheUS0 : Cache := [("carbon_US", { data := sampleUS0, timestamp := 0 })]

/-- Witness for C5: at clock 0, the entry inserted at clock 0 is a hit and is
returned unchanged, with the cache untouched. -/
theorem c5_witness :
    getCarbonIntensity envNoKey cacheUS0 "US" = (sampleUS0, cacheUS0) := by
  have h := c5_cache_ttl envNoKey cacheUS0 "US"
    { data := sampleUS0, timestamp := 0 } (by simp [cacheUS0, mapGet, tableGet])
  exact h.1 (by simp [envNoKey, CACHE_TTL])

/-! ### Claim C10 -/

/-- The resolver either leaves the cache untouched or performs exactly one
`Map.set` on the key `"carbon_" + countryCode`. -/
theorem getCarbonIntensity_cache_shape (env : Env) (cache : Cache) (key : String) :
    (getCarbonIntensity env cache key).2 = cache ∨
    ∃ e, (getCarbonIntensity env cache key).2 =
      mapSet cache ("carbon_" ++ key) e := by
  have hmiss : (getCarbonIntensityMiss env cache key ("carbon_" ++ key)).2 = cache ∨
      ∃ e, (getCarbonIntensityMiss env cache key ("carbon_" ++ key)).2 =
        mapSet cache ("carbon_" ++ key) e := by
    unfold getCarbonIntensityMiss
    cases env.apiKey with
    | none => exact Or.inr ⟨_, rfl⟩
    | some k =>
        cases env.provider (jsToUpper key) with
        | networkError => exact Or.inl rfl
        | badPayload => exact Or.inl rfl
        | success ci fossil renewable => exact Or.inr ⟨_, rfl⟩
  simp only [getCarbonIntensity]
  cases mapGet cache ("carbon_" ++ key) with
  | none => exact hmiss
  | some cached =>
      by_cases hfresh : env.now - cached.timestamp < CACHE_TTL
      · exact Or.inl (by simp only [hfresh, if_true])
      · simp only [hfresh, if_false]
        exact hmiss

/-- C10: a resolve call touches at most the single cache entry keyed
`"carbon_" + countryCode` — every other key reads back unchanged; a lookup
never removes an entry (any key that was bound stays bound); and
`getCacheStats` is a pure read whose `totalEntries` always equals
`validEntries + expiredEntries`. -/
theorem c10_cache_frame (env : Env) (cache : Cache) (key : String) :
    (∀ k2, k2 ≠ "carbon_" ++ key →
      mapGet (getCarbonIntensity env cache key).2 k2 = mapGet cache k2) ∧
    (∀ k2 e, mapGet cache k2 = some e →
      ∃ e2, mapGet (getCarbonIntensity env cache key).2 k2 = some e2) ∧
    (∀ now2, (getCacheStats now2 cache).totalEntries =
      (getCacheStats now2 cache).validEntries +
        (getCacheStats now2 cache).expiredEntries) := by
  refine ⟨?_, ?_, ?_⟩
  · intro k2 hne
    rcases getCarbonIntensity_cache_shape env cache key with h | ⟨e, h⟩
    · rw [h]
    · rw [h, mapGet_mapSet]
      exact if_neg (fun hh => hne hh.symm)
  · intro k2 e he
    rcases getCarbonIntensity_cache_shape env cache key with h | ⟨e2, h⟩
    · exact ⟨e, by rw [h]; exact he⟩
    · rw [h, mapGet_mapSet]
      by_cases hk : "carbon_" ++ key = k2
      · exact ⟨e2, by rw [if_pos hk]⟩
      · exact ⟨e, by rw [if_neg hk]; exact he⟩
  · intro now2
    simp only [getCacheStats]
    exact (countP_add_countP_not cache _).symm

/-- Witness for C10: resolving "FR" leaves the "carbon_US" entry unchanged,
and the stats of the one-entry cache add up. -/
theorem c10_witness :
    mapGet (getCarbonIntensity envNoKey cacheUS0 "FR").2 "carbon_US" =
      mapGet cacheUS0 "carbon_US" ∧
    (getCacheStats 0 cacheUS0).totalEntries =
      (getCacheStats 0 cacheUS0).validEntries +
        (getCacheStats 0 cacheUS0).expiredEntries := by
  refine ⟨(c10_cache_frame envNoKey cacheUS0 "FR").1 "carbon_US" (by simp), ?_⟩
  exact (c10_cache_frame envNoKey cacheUS0 "FR").2.2 0

/-! ### Claim C8 -/

/-- C8: `getMultipleCarbonIntensities` returns exactly one sample per input
key, in input order: the i-th output is the result of `getCarbonIntensity`
applied to the i-th input key (against the cache state produced by the
earlier keys, which is how the shared cache threads through the joined
calls); `Promise.all` joins results in input order regardless of completion
order. -/
theorem c8_resolveMany_in_order (env : Env) (cache : Cache) (codes : List String) :
    (getMultipleCarbonIntensities env cache codes).1.length = codes.length ∧
    ∀ i, i < codes.length →
      (getMultipleCarbonIntensities env cache codes).1.getD i default =
        (getCarbonIntensity env
          (getMultipleCarbonIntensities env cache (codes.take i)).2
          (codes.getD i "")).1 := by
  induction codes generalizing cache with
  | nil =>
      refine ⟨rfl, ?_⟩
      intro i hi
      simp at hi
  | cons c rest ih =>
      refine ⟨?_, ?_⟩
      · simp only [getMultipleCarbonIntensities, List.length_cons]
        rw [(ih (getCarbonIntensity env cache c).2).1]
      · intro i hi
        cases i with
        | zero => simp [getMultipleCarbonIntensities]
        | succ j =>
            have hj : j < rest.length := Nat.lt_of_succ_lt_succ hi
            have htail := (ih (getCarbonIntensity env cache c).2).2 j hj
            simpa [getMultipleCarbonIntensities, List.take_succ_cons] using htail

/-- Witness for C8 on the two-key batch `["US", "FR"]`. -/
theorem c8_witness :
    (getMultipleCarbonIntensities envNoKey [] ["US", "FR"]).1.length = 2 ∧
    (getMultipleCarbonIntensities envNoKey [] ["US", "FR"]).1.getD 1 default =
      (getCarbonIntensity envNoKey
        (getMultipleCarbonIntensities envNoKey [] (["US", "FR"].take 1)).2 "FR").1 := by
  have h := c8_resolveMany_in_order envNoKey [] ["US", "FR"]
  refine ⟨h.1, ?_⟩
  have h1 := h.2 1 (by simp)
  simpa using h1

/-! ### Claim C3 -/

/-- C3 counterexample: the validation error message produced by the code is
"Token count must be a positive number" (capital T), which is not the string
"token count must be a positive number" stated by the claim; shown at the
concrete input tokens = 0. -/
theorem c3_message_differs :
    calculateEnvironmentalImpact envNoKey [] (JSTokens.num 0) "default"
      "global-average" false = .error "Token count must be a positive number" ∧
    "Token count must be a positive number" ≠
      "token count must be a positive number" := by
  constructor
  · norm_num [calculateEnvironmentalImpact]
  · decide

/-- C3 amended: `calculateEnvironmentalImpact` fails, with the message
"Token count must be a positive number", exactly when tokens is missing,
non-numeric (NaN), or a number at most 0; every positive tokens value yields
a result without error; and this validation error is the only error the
function ever returns to the caller. -/
theorem c3_validation (env : Env) (cache : Cache) (tokens : JSTokens)
    (model region : String) (useRT : Bool) :
    ((∃ q, tokens = JSTokens.num q ∧ 0 < q) →
      ∃ p, calculateEnvironmentalImpact env cache tokens model region useRT = .ok p) ∧
    ((tokens = JSTokens.undef ∨ tokens = JSTokens.nan ∨
        ∃ q, tokens = JSTokens.num q ∧ q ≤ 0) →
      calculateEnvironmentalImpact env cache tokens model region useRT =
        .error "Token count must be a positive number") ∧
    (∀ e, calculateEnvironmentalImpact env cache tokens model region useRT = .error e →
      e = "Token count must be a positive number") := by
  refine ⟨?_, ?_, ?_⟩
  · rintro ⟨q, rfl, hq⟩
    have hq0 : ¬ q ≤ 0 := not_le.mpr hq
    simp only [calculateEnvironmentalImpact, hq0, if_false]
    split
    · exact ⟨_, rfl⟩
    · exact ⟨_, rfl⟩
  · rintro (rfl | rfl | ⟨q, rfl, hq⟩)
    · rfl
    · rfl
    · simp only [calculateEnvironmentalImpact, hq, if_true]
  · intro e he
    cases tokens with
    | undef =>
        simp only [calculateEnvironmentalImpact, Except.error.injEq] at he
        exact he.symm
    | nan =>
        simp only [calculateEnvironmentalImpact, Except.error.injEq] at he
        exact he.symm
    | num q =>
        by_cases hq : q ≤ 0
        · simp only [calculateEnvironmentalImpact, hq, if_true, Except.error.injEq] at he
          exact he.symm
        · simp only [calculateEnvironmentalImpact, hq, if_false] at he
          split at he <;> exact absurd he (by simp)

/-- Witness for the amended C3 at the concrete non-numeric input NaN. -/
theorem c3_witness :
    calculateEnvironmentalImpact envNoKey [] JSTokens.nan "default"
      "global-average" true = .error "Token count must be a positive number" :=
  (c3_validation envNoKey [] JSTokens.nan "default" "global-average" true).2.1
    (Or.inr (Or.inl rfl))

/-! ### Claim C1 -/

/-- C1: the code contradicts the claimed provenance. With no API key
configured (so the carbon-intensity value comes from the static fallback
table and the sample says `source: 'fallback'`), a live-data request for the
non-special region "US" still reports `metadata.realTimeData = true`: the
service absorbs every provider failure and returns a fallback object instead
of throwing, so the calculator's catch branch (the only place that would
leave `carbonData` null) is unreachable, and
`realTimeData = useRealTimeData && carbonData !== null` evaluates to true
while `dataSource` truthfully says "fallback". -/
theorem c1_fallback_flagged_as_realtime :
    (calculateEnvironmentalImpact envNoKey [] (JSTokens.num 1000) "gpt4" "US" true).map
      (fun p => (p.1.metadata.realTimeData, p.1.metadata.dataSource)) =
    Except.ok (true, "fallback") := by
  simp [calculateEnvironmentalImpact, envNoKey, getCarbonIntensity, mapGet, tableGet,
    getCarbonIntensityMiss, getFallbackCarbonIntensity, mapCountryCodeToRegion,
    countryToRegion, jsOrStr, FALLBACK_CARBON_INTENSITY, jsOr, buildResult,
    ENERGY_PER_TOKEN, Except.map]
  norm_num

/-! ### Claim C4 -/

/-- C4 counterexample: in `compute(1000, "gpt4", "US", false)` the static
path looks up "US" in `CO2_EMISSION_FACTORS`, whose USA entry is keyed
"usa-average", so the lookup misses and the global-average default 0.475
applies — not the claimed USA factor 0.416; the resulting `co2Kg` is
0.004085, not 0.00358. -/
theorem c4_us_is_not_a_static_key :
    (calculateEnvironmentalImpact envNoKey [] (JSTokens.num 1000) "gpt4" "US" false).map
      (fun p => (p.1.co2Factor, p.1.co2Total)) = Except.ok (0.475, 0.004085) ∧
    (0.475 : ℚ) ≠ 0.416 ∧ (0.004085 : ℚ) ≠ 0.00358 := by
  refine ⟨?_, by norm_num, by norm_num⟩
  simp [calculateEnvironmentalImpact, envNoKey, tableGet, ENERGY_PER_TOKEN,
    CO2_EMISSION_FACTORS, jsOr, buildResult, Except.map]
  norm_num

/-- C4 amended: `compute(1000, "gpt4", "US", false)` uses the gpt4
energy-per-token 0.0000086, giving `energyKWh = 0.0086`; but "US" is not a
key of the static emission-factor table, so the static path falls back to
the global-average factor 0.475 kg CO2/kWh, giving `co2Kg = 0.004085`. -/
theorem c4_scenarioB_amended :
    tableGet CO2_EMISSION_FACTORS "US" = none ∧
    (calculateEnvironmentalImpact envNoKey [] (JSTokens.num 1000) "gpt4" "US" false).map
      (fun p => (p.1.energyTotal, p.1.co2Factor, p.1.co2Total)) =
      Except.ok (0.0086, 0.475, 0.004085) := by
  constructor
  · simp [CO2_EMISSION_FACTORS, tableGet]
  · simp [calculateEnvironmentalImpact, envNoKey, tableGet, ENERGY_PER_TOKEN,
      CO2_EMISSION_FACTORS, jsOr, buildResult, Except.map]
    norm_num

/-! ### Claim C6 -/

/-- C6: Scenario A — `compute(1000, "default", "global-average", false)`
yields `energyKWh = 0.006 = 1000 * 0.000006` and
`co2Kg = 0.00285 = 0.006 * 0.475`, and every equivalence field is obtained
by scaling exactly that co2Kg by its constant and rounding (2 decimals, or
`Math.round` alone for `smartphoneCharges` and `lightbulbHours`). -/
theorem c6_scenarioA :
    (calculateEnvironmentalImpact envNoKey [] (JSTokens.num 1000) "default"
        "global-average" false).map
      (fun p => (p.1.energyTotal, p.1.co2Total)) = Except.ok (0.006, 0.00285) ∧
    (calculateEnvironmentalImpact envNoKey [] (JSTokens.num 1000) "default"
        "global-average" false).map
      (fun p => p.1.equivalences) = Except.ok
      { carMiles := round2 ((0.00285 : ℚ) / EQUIVALENCE_FACTORS.carMilePerGallon)
        flightMiles := round2 ((0.00285 : ℚ) / EQUIVALENCE_FACTORS.flightPerMile)
        beefBurgers := round2 ((0.00285 : ℚ) / EQUIVALENCE_FACTORS.beefBurger)
        smartphoneCharges :=
          (jsRound ((0.00285 : ℚ) / EQUIVALENCE_FACTORS.smartphoneCharge) : ℚ)
        householdElectricityDays :=
          round2 ((0.00285 : ℚ) / EQUIVALENCE_FACTORS.householdElectricityPerDay)
        treeYears := round2 ((0.00285 : ℚ) / EQUIVALENCE_FACTORS.treeYearAbsorption)
        laptopHours := round2 ((0.00285 : ℚ) / EQUIVALENCE_FACTORS.laptopHour)
        lightbulbHours :=
          (jsRound ((0.00285 : ℚ) / EQUIVALENCE_FACTORS.lightbulbHour) : ℚ) } := by
  constructor
  · simp [calculateEnvironmentalImpact, envNoKey, tableGet, ENERGY_PER_TOKEN,
      CO2_EMISSION_FACTORS, jsOr, buildResult, Except.map]
    norm_num
  · simp [calculateEnvironmentalImpact, envNoKey, tableGet, ENERGY_PER_TOKEN,
      CO2_EMISSION_FACTORS, EQUIVALENCE_FACTORS, jsOr, buildResult, Except.map,
      round2, jsRound]
    norm_num

/-! ### Claim C7 -/

/-- `Math.round` of a non-negative number is non-negative. -/
theorem jsRound_nonneg {q : ℚ} (h : 0 ≤ q) : (0 : ℤ) ≤ jsRound q := by
  unfold jsRound
  apply Int.floor_nonneg.mpr
  linarith

/-- Two-decimal rounding of a non-negative number is non-negative. -/
theorem round2_nonneg {q : ℚ} (h : 0 ≤ q) : 0 ≤ round2 q := by
  unfold round2
  have := jsRound_nonneg (q := q * 100) (by positivity)
  positivity

/-- The energy-per-token lookup (with its `|| default`) is always positive. -/
theorem energyPerToken_pos (model : String) :
    0 < jsOr (tableGet ENERGY_PER_TOKEN model)
      ((tableGet ENERGY_PER_TOKEN "default").getD 0) := by
  have hd : tableGet ENERGY_PER_TOKEN "default" = some 0.000006 := by
    simp [ENERGY_PER_TOKEN, tableGet]
  apply jsOr_pos
  · intro v hv
    exact le_of_lt (energy_table_pos _ (tableGet_mem _ _ _ hv))
  · rw [hd]
    norm_num

/-- The static emission-factor lookup (with its `|| global-average`) is
always positive. -/
theorem staticFactor_pos (region : String) :
    0 < jsOr (tableGet CO2_EMISSION_FACTORS region)
      ((tableGet CO2_EMISSION_FACTORS "global-average").getD 0) := by
  have hd : tableGet CO2_EMISSION_FACTORS "global-average" = some 0.475 := by
    simp [CO2_EMISSION_FACTORS, tableGet]
  apply jsOr_pos
  · intro v hv
    exact le_of_lt (co2_table_pos _ (tableGet_mem _ _ _ hv))
  · rw [hd]
    norm_num

/-- Field-level description of `buildResult`: each rounded equivalence is the
rounding of `co2Total` over its constant, `co2Total` is the product of the
unrounded inputs, and everything is non-negative when the inputs are
positive. -/
theorem buildResult_fields (env : Env) (q : ℚ) (model region : String)
    (useRT : Bool) (te f : ℚ) (cd : Option CarbonSample)
    (hte : 0 < te) (hf : 0 < f) :
    ((buildResult env q model region useRT te f cd).equivalences.carMiles =
        round2 ((buildResult env q model region useRT te f cd).co2Total /
          EQUIVALENCE_FACTORS.carMilePerGallon) ∧
      (buildResult env q model region useRT te f cd).equivalences.flightMiles =
        round2 ((buildResult env q model region useRT te f cd).co2Total /
          EQUIVALENCE_FACTORS.flightPerMile) ∧
      (buildResult env q model region useRT te f cd).equivalences.beefBurgers =
        round2 ((buildResult env q model region useRT te f cd).co2Total /
          EQUIVALENCE_FACTORS.beefBurger) ∧
      (buildResult env q model region useRT te f cd).equivalences.smartphoneCharges =
        (jsRound ((buildResult env q model region useRT te f cd).co2Total /
          EQUIVALENCE_FACTORS.smartphoneCharge) : ℚ) ∧
      (buildResult env q model region useRT te f cd).equivalences.householdElectricityDays =
        round2 ((buildResult env q model region useRT te f cd).co2Total /
          EQUIVALENCE_FACTORS.householdElectricityPerDay) ∧
      (buildResult env q model region useRT te f cd).equivalences.treeYears =
        round2 ((buildResult env q model region useRT te f cd).co2Total /
          EQUIVALENCE_FACTORS.treeYearAbsorption) ∧
      (buildResult env q model region useRT te f cd).equivalences.laptopHours =
        round2 ((buildResult env q model region useRT te f cd).co2Total /
          EQUIVALENCE_FACTORS.laptopHour) ∧
      (buildResult env q model region useRT te f cd).equivalences.lightbulbHours =
        (jsRound ((buildResult env q model region useRT te f cd).co2Total /
          EQUIVALENCE_FACTORS.lightbulbHour) : ℚ)) ∧
    (buildResult env q model region useRT te f cd).co2Total =
      (buildResult env q model region useRT te f cd).energyTotal *
        (buildResult env q model region useRT te f cd).co2Factor ∧
    0 < (buildResult env q model region useRT te f cd).co2Total ∧
    (0 ≤ (buildResult env q model region useRT te f cd).equivalences.carMiles ∧
      0 ≤ (buildResult env q model region useRT te f cd).equivalences.flightMiles ∧
      0 ≤ (buildResult env q model region useRT te f cd).equivalences.beefBurgers ∧
      0 ≤ (buildResult env q model region useRT te f cd).equivalences.smartphoneCharges ∧
      0 ≤ (buildResult env q model region useRT te f cd).equivalences.householdElectricityDays ∧
      0 ≤ (buildResult env q model region useRT te f cd).equivalences.treeYears ∧
      0 ≤ (buildResult env q model region useRT te f cd).equivalences.laptopHours ∧
      0 ≤ (buildResult env q model region useRT te f cd).equivalences.lightbulbHours) := by
  have hco2 : 0 < te * f := mul_pos hte hf
  have hco2n : (0 : ℚ) ≤ te * f := le_of_lt hco2
  have hcast : ∀ x : ℚ, 0 ≤ x → (0 : ℚ) ≤ (jsRound x : ℚ) := by
    intro x hx
    exact_mod_cast jsRound_nonneg hx
  refine ⟨⟨?_, ?_, ?_, ?_, ?_, ?_, ?_, ?_⟩, ?_, ?_, ⟨?_, ?_, ?_, ?_, ?_, ?_, ?_, ?_⟩⟩
  · simp [buildResult]
  · simp [buildResult]
  · simp [buildResult]
  · simp [buildResult]
  · simp [buildResult]
  · simp [buildResult]
  · simp [buildResult]
  · simp [buildResult]
  · simp [buildResult]
  · simpa only [buildResult] using hco2
  · simp only [buildResult]
    exact round2_nonneg (div_nonneg hco2n (by norm_num [EQUIVALENCE_FACTORS]))
  · simp only [buildResult]
    exact round2_nonneg (div_nonneg hco2n (by norm_num [EQUIVALENCE_FACTORS]))
  · simp only [buildResult]
    exact round2_nonneg (div_nonneg hco2n (by norm_num [EQUIVALENCE_FACTORS]))
  · simp only [buildResult]
    exact hcast _ (div_nonneg hco2n (by norm_num [EQUIVALENCE_FACTORS]))
  · simp only [buildResult]
    exact round2_nonneg (div_nonneg hco2n (by norm_num [EQUIVALENCE_FACTORS]))
  · simp only [buildResult]
    exact round2_nonneg (div_nonneg hco2n (by norm_num [EQUIVALENCE_FACTORS]))
  · simp only [buildResult]
    exact round2_nonneg (div_nonneg hco2n (by norm_num [EQUIVALENCE_FACTORS]))
  · simp only [buildResult]
    exact hcast _ (div_nonneg hco2n (by norm_num [EQUIVALENCE_FACTORS]))

/-- C7: every successful computation result has each of the eight
equivalence fields equal to `co2Total` divided by its documented constant and
then rounded (two decimals for the fractional metrics, `Math.round` alone for
`smartphoneCharges` and `lightbulbHours`); the rounded values are not fed
back — `co2Total` itself is the product of the unrounded energy and factor —
and `co2Total` and all equivalences are non-negative (the co2 total is in
fact strictly positive). -/
theorem c7_equivalence_linearity (env : Env) (cache : Cache) (tokens : JSTokens)
    (model region : String) (useRT : Bool) (hp : ProviderNonneg env)
    (hc : CacheOK cache) (r : ImpactResult) (c : Cache)
    (h : calculateEnvironmentalImpact env cache tokens model region useRT =
      .ok (r, c)) :
    (r.equivalences.carMiles =
        round2 (r.co2Total / EQUIVALENCE_FACTORS.carMilePerGallon) ∧
      r.equivalences.flightMiles =
        round2 (r.co2Total / EQUIVALENCE_FACTORS.flightPerMile) ∧
      r.equivalences.beefBurgers =
        round2 (r.co2Total / EQUIVALENCE_FACTORS.beefBurger) ∧
      r.equivalences.smartphoneCharges =
        (jsRound (r.co2Total / EQUIVALENCE_FACTORS.smartphoneCharge) : ℚ) ∧
      r.equivalences.householdElectricityDays =
        round2 (r.co2Total / EQUIVALENCE_FACTORS.householdElectricityPerDay) ∧
      r.equivalences.treeYears =
        round2 (r.co2Total / EQUIVALENCE_FACTORS.treeYearAbsorption) ∧
      r.equivalences.laptopHours =
        round2 (r.co2Total / EQUIVALENCE_FACTORS.laptopHour) ∧
      r.equivalences.lightbulbHours =
        (jsRound (r.co2Total / EQUIVALENCE_FACTORS.lightbulbHour) : ℚ)) ∧
    r.co2Total = r.energyTotal * r.co2Factor ∧
    0 < r.co2Total ∧
    (0 ≤ r.equivalences.carMiles ∧ 0 ≤ r.equivalences.flightMiles ∧
      0 ≤ r.equivalences.beefBurgers ∧ 0 ≤ r.equivalences.smartphoneCharges ∧
      0 ≤ r.equivalences.householdElectricityDays ∧ 0 ≤ r.equivalences.treeYears ∧
      0 ≤ r.equivalences.laptopHours ∧ 0 ≤ r.equivalences.lightbulbHours) := by
  cases tokens with
  | undef => exact absurd h (by simp [calculateEnvironmentalImpact])
  | nan => exact absurd h (by simp [calculateEnvironmentalImpact])
  | num q =>
      by_cases hq : q ≤ 0
      · rw [calculateEnvironmentalImpact] at h
        rw [if_pos hq] at h
        exact absurd h (by simp)
      · have hq1 : 0 < q := not_le.mp hq
        have hE := energyPerToken_pos model
        simp only [calculateEnvironmentalImpact, hq, if_false] at h
        split at h
        · simp only [Except.ok.injEq, Prod.mk.injEq] at h
          obtain ⟨hr, hc2⟩ := h
          subst hr
          have hfpos : 0 < (getCarbonIntensity env cache region).1.carbonIntensity / 1000 := by
            have hci := (getCarbonIntensity_pos env cache region hp hc).1
            positivity
          exact buildResult_fields env q model region useRT _ _ _
            (mul_pos hq1 hE) hfpos
        · simp only [Except.ok.injEq, Prod.mk.injEq] at h
          obtain ⟨hr, hc2⟩ := h
          subst hr
          exact buildResult_fields env q model region useRT _ _ _
            (mul_pos hq1 hE) (staticFactor_pos region)

/-- Concrete Scenario-A result record, used as the C7 witness input. -/
def rA : ImpactResult :=
  { tokens := 1000
    model := "default"
    region := "global-average"
    energyTotal := 0.006
    co2Total := 0.00285
    co2Factor := 0.475
    equivalences :=
      { carMiles := 0.01
        flightMiles := 0.01
        beefBurgers := 0
        smartphoneCharges := 29
        householdElectricityDays := 0
        treeYears := 0
        laptopHours := 0.06
        lightbulbHours := 7 }
    metadata :=
      { realTimeData := false
        dataSource := "static"
        timestamp := 0
        fossilFuelPercentage := none
        renewablePercentage := none } }

/-- Witness for C7 at Scenario A. -/
theorem c7_witness :
    rA.equivalences.carMiles =
      round2 (rA.co2Total / EQUIVALENCE_FACTORS.carMilePerGallon) ∧
    rA.co2Total = rA.energyTotal * rA.co2Factor ∧
    0 < rA.co2Total ∧ 0 ≤ rA.equivalences.carMiles := by
  have hp : ProviderNonneg envNoKey := by
    intro cc ci f r h
    simp [envNoKey] at h
  have hc : CacheOK ([] : Cache) := by
    intro p hmem
    simp at hmem
  have hr : calculateEnvironmentalImpact envNoKey [] (JSTokens.num 1000) "default"
      "global-average" false = .ok (rA, ([] : Cache)) := by
    simp [calculateEnvironmentalImpact, envNoKey, tableGet, ENERGY_PER_TOKEN,
      CO2_EMISSION_FACTORS, EQUIVALENCE_FACTORS, jsOr, buildResult, rA,
      round2, jsRound]
    norm_num
  have h := c7_equivalence_linearity envNoKey [] (JSTokens.num 1000) "default"
    "global-average" false hp hc rA [] hr
  exact ⟨h.1.1, h.2.1, h.2.2.1, h.2.2.2.1⟩

/-! ### Claim C9 -/

/-- C9 counterexample: for region "US" with 1000 tokens of the default model
and no API key, the live-requested computation (which serves fallback data)
yields co2Kg = 0.000002316 while the static path for the very same region
yields co2Kg = 0.00285 — the static path is NOT 1000 times the live-fallback
result (it is about 1230 times it), because the static lookup for "US"
misses its table and uses 0.475, not the fallback entry 0.386. -/
theorem c9_us_static_ratio_not_thousandfold :
    (calculateEnvironmentalImpact envNoKey [] (JSTokens.num 1000) "default" "US" true).map
      (fun p => p.1.co2Total) = Except.ok 0.000002316 ∧
    (calculateEnvironmentalImpact envNoKey [] (JSTokens.num 1000) "default" "US" false).map
      (fun p => p.1.co2Total) = Except.ok 0.00285 ∧
    (0.00285 : ℚ) ≠ 1000 * 0.000002316 := by
  have hU : jsToUpper "US" = "US" := by decide
  refine ⟨?_, ?_, by norm_num⟩
  · simp [calculateEnvironmentalImpact, envNoKey, getCarbonIntensity, mapGet,
      tableGet, getCarbonIntensityMiss, getFallbackCarbonIntensity,
      mapCountryCodeToRegion, countryToRegion, jsOrStr, FALLBACK_CARBON_INTENSITY,
      jsOr, buildResult, ENERGY_PER_TOKEN, Except.map, hU]
    norm_num
  · simp [calculateEnvironmentalImpact, envNoKey, tableGet, ENERGY_PER_TOKEN,
      CO2_EMISSION_FACTORS, jsOr, buildResult, Except.map]
    norm_num

/-- C9 amended: on the live path with no API key configured (and no fresh
cache entry), the co2 factor used by the calculator is the fallback-table
entry for the mapped region divided by 1000 — the table value documented in
kg CO2/kWh is re-interpreted as gCO2/kWh — so the resulting co2Kg is 1000
times smaller than a computation using the fallback entry at its documented
unit; relative to the static path of the same region the ratio is exactly
1000 only when both lookups return the same number (for example unmapped
regions, where both default to 0.475), while for "US" the fallback path uses
0.386/1000 = 0.000386 and the static path uses 0.475. -/
theorem c9_fallback_factor_divided_by_1000 (env : Env) (cache : Cache) (q : ℚ)
    (model region : String) (hkey : env.apiKey = none) (hq : 0 < q)
    (hga : region ≠ "global-average") (hre : region ≠ "renewable")
    (hmiss : mapGet cache ("carbon_" ++ region) = none) :
    (calculateEnvironmentalImpact env cache (JSTokens.num q) model region true).map
      (fun p => p.1.co2Factor) =
    Except.ok ((getFallbackCarbonIntensity env.now region).carbonIntensity / 1000) := by
  have hq0 : ¬ q ≤ 0 := not_le.mpr hq
  have hgc : getCarbonIntensity env cache region =
      (getFallbackCarbonIntensity env.now region,
        mapSet cache ("carbon_" ++ region)
          ⟨getFallbackCarbonIntensity env.now region, env.now⟩) := by
    simp only [getCarbonIntensity, hmiss]
    simp only [getCarbonIntensityMiss, hkey]
  simp only [calculateEnvironmentalImpact, hq0, if_false, hgc]
  simp [hga, hre, Except.map, buildResult]

/-- Witness for the amended C9 at region "US", where the fallback entry is
0.386 and the factor becomes 0.000386. -/
theorem c9_witness :
    (calculateEnvironmentalImpact envNoKey [] (JSTokens.num 1000) "default" "US" true).map
      (fun p => p.1.co2Factor) =
      Except.ok ((getFallbackCarbonIntensity 0 "US").carbonIntensity / 1000) ∧
    (getFallbackCarbonIntensity 0 "US").carbonIntensity / 1000 = 0.000386 := by
  constructor
  · exact c9_fallback_factor_divided_by_1000 envNoKey [] 1000 "default" "US" rfl
      (by norm_num) (by simp) (by simp) rfl
  · have hU : jsToUpper "US" = "US" := by decide
    simp [getFallbackCarbonIntensity, mapCountryCodeToRegion, countryToRegion,
      jsOrStr, FALLBACK_CARBON_INTENSITY, tableGet, jsOr, hU]
    norm_num

end AIImpact
